import Mathlib

/-!
Verification of the palantir-client protocol/session core against its
specification.

The development shallowly embeds three parts of the code base:

* the Message Codec (zod schema `MessageBodySchema` intersected with the
  timestamp meta schema, plus `encodeMessage` and `decodeMessage` of class
  `MessageChannel`);
* the Connection Channel event logic of `MessageChannel` (the websocket
  message, error and close listeners, `isOpen`, `onClosed` and `send`);
* the background-script Session Broadcast Hub (`startSession`,
  `stopSession`, `startSessionFromOptions`, `tryEnsureSession`,
  `getSessionState`, `createRoom`, `joinRoom`, `leaveRoom` and the port
  message listener).

The msgpack binary layer is an external library; it is modelled as an
abstract pair of functions between byte lists and generic structured
values.  The `Session` class of the `palantir-client` package is not part
of the sources under verification; where its behaviour is needed it is
modelled from the spec and marked as such.
-/

namespace Palantir

/-- Generic structured value produced by msgpack decoding: the JS data a
zod schema is run against.  Object entries keep insertion order; a later
duplicate key overwrites an earlier one, as in a JS object. -/
inductive Value where
  | nil
  | bool (b : Bool)
  | num (n : Int)
  | str (s : String)
  | bin (bytes : List Nat)
  | arr (items : List Value)
  | map (entries : List (String × Value))

/-- Lookup of a key in a JS-object-like entry list; the last occurrence of
a key wins, matching JS object construction from duplicate msgpack keys. -/
def mlookup : List (String × Value) → String → Option Value
  | [], _ => none
  | (k0, v0) :: rest, k =>
    match mlookup rest k with
    | some v => some v
    | none => if k0 = k then some v0 else none

/-- ConnectionClosedReasonSchema: z.enum of the five closure reasons. -/
inductive ConnectionClosedReason where
  | unauthorized
  | server_error
  | room_closed
  | timeout
  | unknown
deriving DecidableEq

/-- RoomDisconnectedReason: z.enum of the three room disconnect reasons. -/
inductive RoomDisconnectedReason where
  | closed_by_host
  | unauthorized
  | server_error
deriving DecidableEq

/-- RoomUserRoleSchema: z.enum(["host", "guest"]). -/
inductive RoomUserRole where
  | host
  | guest
deriving DecidableEq

/-- RoomUserSchema: id (uuid string), name, role. -/
structure RoomUser where
  id : String
  name : String
  role : RoomUserRole
deriving DecidableEq

/-- MessageBody: the tagged union of MessageBodySchema, one constructor
per discriminator literal of the zod discriminated union. -/
inductive MessageBody where
  | connectionLogin (username : String) (api_key : Option String)
  | connectionLoginAck
  | connectionPing
  | connectionPong
  | connectionClientError (message : String)
  | connectionClosed (reason : ConnectionClosedReason) (message : String)
  | connectionKeepalive
  | roomCreate (name : String) (password : String)
  | roomCreateAck
  | roomClose
  | roomCloseAck
  | roomJoin (id : String) (password : String)
  | roomJoinAck
  | roomLeave
  | roomLeaveAck
  | roomDisconnected (reason : RoomDisconnectedReason)
  | roomRequestState
  | roomState (id : String) (name : String) (password : String) (users : List RoomUser)
deriving DecidableEq

/-- Message = MessageMetaSchema.and(MessageBodySchema): timestamp plus body. -/
structure Message where
  t : Int
  body : MessageBody
deriving DecidableEq

/-- Wire discriminator of a body, the value of its field m. -/
def MessageBody.m : MessageBody → String
  | .connectionLogin _ _ => "connection::login/v1"
  | .connectionLoginAck => "connection::login_ack/v1"
  | .connectionPing => "connection::ping/v1"
  | .connectionPong => "connection::pong/v1"
  | .connectionClientError _ => "connection::client_error/v1"
  | .connectionClosed _ _ => "connection::closed/v1"
  | .connectionKeepalive => "connection::keepalive/v1"
  | .roomCreate _ _ => "room::create/v1"
  | .roomCreateAck => "room::create_ack/v1"
  | .roomClose => "room::close/v1"
  | .roomCloseAck => "room::close_ack/v1"
  | .roomJoin _ _ => "room::join/v1"
  | .roomJoinAck => "room::join_ack/v1"
  | .roomLeave => "room::leave/v1"
  | .roomLeaveAck => "room::leave_ack/v1"
  | .roomDisconnected _ => "room::disconnected/v1"
  | .roomRequestState => "room::request_state/v1"
  | .roomState _ _ _ _ => "room::state/v1"

/-- The eighteen discriminator literals of MessageBodySchema. -/
def knownTags : List String :=
  ["connection::login/v1", "connection::login_ack/v1", "connection::ping/v1",
   "connection::pong/v1", "connection::client_error/v1", "connection::closed/v1",
   "connection::keepalive/v1", "room::create/v1", "room::create_ack/v1",
   "room::close/v1", "room::close_ack/v1", "room::join/v1", "room::join_ack/v1",
   "room::leave/v1", "room::leave_ack/v1", "room::disconnected/v1",
   "room::request_state/v1", "room::state/v1"]

/-- Hex digit test used by the zod uuid pattern. -/
def isHexDigit (c : Char) : Bool :=
  (48 ≤ c.toNat && c.toNat ≤ 57) || (97 ≤ c.toNat && c.toNat ≤ 102) ||
    (65 ≤ c.toNat && c.toNat ≤ 70)

/-- Consume exactly n hex digits. -/
def takeHex : Nat → List Char → Option (List Char)
  | 0, cs => some cs
  | n + 1, c :: cs => if isHexDigit c then takeHex n cs else none
  | _ + 1, [] => none

/-- Consume one dash. -/
def expectDash : List Char → Option (List Char)
  | c :: cs => if c = '-' then some cs else none
  | [] => none

/-- The zod v3 uuid refinement on z.string(): 8-4-4-4-12 hex digit groups
separated by dashes. -/
def isUuid (s : String) : Bool :=
  match (((((((takeHex 8 s.toList).bind expectDash).bind (takeHex 4)).bind
      expectDash).bind (takeHex 4)).bind expectDash).bind (takeHex 4)).bind
      (fun cs => (expectDash cs).bind (takeHex 12)) with
  | some [] => true
  | _ => false

/-- z.string() on an object field: present and a string. -/
def getStr (es : List (String × Value)) (k : String) : Except String String :=
  match mlookup es k with
  | some (.str s) => .ok s
  | _ => .error ("expected string field " ++ k)

/-- z.string().optional(): absent is fine, a present value must be a
string (msgpack decoding yields null, never undefined, so any present
non-string value is rejected). -/
def getOptStr (es : List (String × Value)) (k : String) : Except String (Option String) :=
  match mlookup es k with
  | none => .ok none
  | some (.str s) => .ok (some s)
  | some _ => .error ("expected optional string field " ++ k)

/-- z.string().uuid() on an object field. -/
def getUuid (es : List (String × Value)) (k : String) : Except String String :=
  match mlookup es k with
  | some (.str s) => if isUuid s then .ok s else .error ("expected uuid in field " ++ k)
  | _ => .error ("expected uuid string field " ++ k)

/-- ConnectionClosedReasonSchema.parse on a string. -/
def closedReasonOfString (s : String) : Except String ConnectionClosedReason :=
  if s = "unauthorized" then .ok .unauthorized
  else if s = "server_error" then .ok .server_error
  else if s = "room_closed" then .ok .room_closed
  else if s = "timeout" then .ok .timeout
  else if s = "unknown" then .ok .unknown
  else .error "invalid connection closed reason"

/-- RoomDisconnectedReason.parse on a string. -/
def discReasonOfString (s : String) : Except String RoomDisconnectedReason :=
  if s = "closed_by_host" then .ok .closed_by_host
  else if s = "unauthorized" then .ok .unauthorized
  else if s = "server_error" then .ok .server_error
  else .error "invalid room disconnected reason"

/-- RoomUserRoleSchema.parse on a string. -/
def roleOfString (s : String) : Except String RoomUserRole :=
  if s = "host" then .ok .host
  else if s = "guest" then .ok .guest
  else .error "invalid room user role"

/-- Enum-typed object field (z.enum after key lookup). -/
def getClosedReason (es : List (String × Value)) (k : String) :
    Except String ConnectionClosedReason :=
  match mlookup es k with
  | some (.str s) => closedReasonOfString s
  | _ => .error ("expected enum string field " ++ k)

/-- Enum-typed object field for the room disconnect reason. -/
def getDiscReason (es : List (String × Value)) (k : String) :
    Except String RoomDisconnectedReason :=
  match mlookup es k with
  | some (.str s) => discReasonOfString s
  | _ => .error ("expected enum string field " ++ k)

/-- Enum-typed object field for the room user role. -/
def getRole (es : List (String × Value)) (k : String) : Except String RoomUserRole :=
  match mlookup es k with
  | some (.str s) => roleOfString s
  | _ => .error ("expected enum string field " ++ k)

/-- RoomUserSchema.parse on a generic value. -/
def parseUser (v : Value) : Except String RoomUser :=
  match v with
  | .map es => do
    let i ← getUuid es "id"
    let n ← getStr es "name"
    let r ← getRole es "role"
    pure { id := i, name := n, role := r }
  | _ => .error "expected room user object"

/-- z.array(RoomUserSchema).parse on an element list. -/
def parseUsers : List Value → Except String (List RoomUser)
  | [] => .ok []
  | v :: rest => do
    let u ← parseUser v
    let us ← parseUsers rest
    pure (u :: us)

/-- Array-of-users object field. -/
def getUsers (es : List (String × Value)) (k : String) : Except String (List RoomUser) :=
  match mlookup es k with
  | some (.arr l) => parseUsers l
  | _ => .error ("expected array field " ++ k)

/-- ConnectionLoginMsgBodySchema. -/
def parseLogin (es : List (String × Value)) : Except String MessageBody := do
  let u ← getStr es "username"
  let k ← getOptStr es "api_key"
  pure (.connectionLogin u k)

/-- ConnectionClientErrorMsgBodySchema. -/
def parseClientError (es : List (String × Value)) : Except String MessageBody := do
  let msg ← getStr es "message"
  pure (.connectionClientError msg)

/-- ConnectionClosedMsgBodySchema. -/
def parseClosed (es : List (String × Value)) : Except String MessageBody := do
  let r ← getClosedReason es "reason"
  let msg ← getStr es "message"
  pure (.connectionClosed r msg)

/-- RoomCreateMsgBodySchema. -/
def parseCreate (es : List (String × Value)) : Except String MessageBody := do
  let n ← getStr es "name"
  let p ← getStr es "password"
  pure (.roomCreate n p)

/-- RoomJoinMsgBodySchema. -/
def parseJoin (es : List (String × Value)) : Except String MessageBody := do
  let i ← getUuid es "id"
  let p ← getStr es "password"
  pure (.roomJoin i p)

/-- RoomDisconnectedMsgBodySchema. -/
def parseDisconnected (es : List (String × Value)) : Except String MessageBody := do
  let r ← getDiscReason es "reason"
  pure (.roomDisconnected r)

/-- RoomStateMsgBodySchema. -/
def parseState (es : List (String × Value)) : Except String MessageBody := do
  let i ← getUuid es "id"
  let n ← getStr es "name"
  let p ← getStr es "password"
  let us ← getUsers es "users"
  pure (.roomState i n p us)

/-- Dispatch of the discriminated union once the discriminator string is
known: each literal selects its variant schema, anything else is an
invalid discriminator value. -/
def parseBodyTagged (tag : String) (es : List (String × Value)) :
    Except String MessageBody :=
  if tag = "connection::login/v1" then parseLogin es
  else if tag = "connection::login_ack/v1" then .ok .connectionLoginAck
  else if tag = "connection::ping/v1" then .ok .connectionPing
  else if tag = "connection::pong/v1" then .ok .connectionPong
  else if tag = "connection::client_error/v1" then parseClientError es
  else if tag = "connection::closed/v1" then parseClosed es
  else if tag = "connection::keepalive/v1" then .ok .connectionKeepalive
  else if tag = "room::create/v1" then parseCreate es
  else if tag = "room::create_ack/v1" then .ok .roomCreateAck
  else if tag = "room::close/v1" then .ok .roomClose
  else if tag = "room::close_ack/v1" then .ok .roomCloseAck
  else if tag = "room::join/v1" then parseJoin es
  else if tag = "room::join_ack/v1" then .ok .roomJoinAck
  else if tag = "room::leave/v1" then .ok .roomLeave
  else if tag = "room::leave_ack/v1" then .ok .roomLeaveAck
  else if tag = "room::disconnected/v1" then parseDisconnected es
  else if tag = "room::request_state/v1" then .ok .roomRequestState
  else if tag = "room::state/v1" then parseState es
  else .error "invalid discriminator value"

/-- MessageBodySchema.parse: a discriminated union on field m. -/
def parseBody (es : List (String × Value)) : Except String MessageBody :=
  match mlookup es "m" with
  | some (.str tag) => parseBodyTagged tag es
  | _ => .error "missing or invalid discriminator"

/-- MessageMetaSchema.parse: field t must be a number. -/
def parseMeta (es : List (String × Value)) : Except String Int :=
  match mlookup es "t" with
  | some (.num n) => .ok n
  | _ => .error "expected numeric field t"

/-- MessageSchema.parse: the intersection of the meta schema and the body
schema; both must accept the same object. -/
def parseMessage : Value → Except String Message
  | .map es => do
    let t ← parseMeta es
    let b ← parseBody es
    pure { t := t, body := b }
  | _ => .error "expected an object"

/-- Wire string of a closure reason. -/
def ConnectionClosedReason.wire : ConnectionClosedReason → String
  | .unauthorized => "unauthorized"
  | .server_error => "server_error"
  | .room_closed => "room_closed"
  | .timeout => "timeout"
  | .unknown => "unknown"

/-- Wire string of a room disconnect reason. -/
def RoomDisconnectedReason.wire : RoomDisconnectedReason → String
  | .closed_by_host => "closed_by_host"
  | .unauthorized => "unauthorized"
  | .server_error => "server_error"

/-- Wire string of a room user role. -/
def RoomUserRole.wire : RoomUserRole → String
  | .host => "host"
  | .guest => "guest"

/-- Object form of a room user, as produced on the encoding side. -/
def userVal (u : RoomUser) : Value :=
  .map [("id", .str u.id), ("name", .str u.name), ("role", .str u.role.wire)]

/-- Variant-specific fields of a body, as spread into the wire object. -/
def MessageBody.fields : MessageBody → List (String × Value)
  | .connectionLogin u k =>
    ("username", .str u) ::
      (match k with
       | some s => [("api_key", .str s)]
       | none => [])
  | .connectionLoginAck => []
  | .connectionPing => []
  | .connectionPong => []
  | .connectionClientError msg => [("message", .str msg)]
  | .connectionClosed r msg => [("reason", .str r.wire), ("message", .str msg)]
  | .connectionKeepalive => []
  | .roomCreate n p => [("name", .str n), ("password", .str p)]
  | .roomCreateAck => []
  | .roomClose => []
  | .roomCloseAck => []
  | .roomJoin i p => [("id", .str i), ("password", .str p)]
  | .roomJoinAck => []
  | .roomLeave => []
  | .roomLeaveAck => []
  | .roomDisconnected r => [("reason", .str r.wire)]
  | .roomRequestState => []
  | .roomState i n p us => [("id", .str i), ("name", .str n),
      ("password", .str p), ("users", .arr (us.map userVal))]

/-- encodeMessage before the msgpack layer: the wire object spreads the
current timestamp and the body, discriminator included. -/
def encodeMessageVal (now : Int) (b : MessageBody) : Value :=
  .map (("t", .num now) :: ("m", .str b.m) :: b.fields)

/-- encodeMessage of MessageChannel: stamp the current time, spread the
body and run the msgpack encoder. -/
def encodeMessage (mencode : Value → List Nat) (now : Int) (b : MessageBody) :
    List Nat :=
  mencode (encodeMessageVal now b)

/-- decodeMessage of MessageChannel: msgpack-decode, then validate with
MessageSchema.parse. -/
def decodeMessage (mdecode : List Nat → Except String Value) (data : List Nat) :
    Except String Message :=
  mdecode data >>= parseMessage

/-- Schema-level refinements of a typed body: every uuid-refined string
field actually has uuid shape.  All other field constraints hold by
typing. -/
def bodyValid : MessageBody → Bool
  | .roomJoin i _ => isUuid i
  | .roomState i _ _ us => isUuid i && us.all (fun u => isUuid u.id)
  | _ => true

/-! Reduction lemmas for the Except monad as produced by do notation. -/

@[simp] theorem exbind_ok (a : α) (f : α → Except ε β) :
    (Except.ok a >>= f) = f a := rfl

@[simp] theorem exbind_error (e : ε) (f : α → Except ε β) :
    ((Except.error e : Except ε α) >>= f) = .error e := rfl

@[simp] theorem exmap_ok (g : α → β) (a : α) :
    (g <$> (Except.ok a : Except ε α)) = .ok (g a) := rfl

@[simp] theorem exmap_error (g : α → β) (e : ε) :
    (g <$> (Except.error e : Except ε α)) = .error e := rfl

@[simp] theorem expure_eq_ok (a : α) : (pure a : Except ε α) = .ok a := rfl

@[simp] theorem exisOk_ok (a : α) : (Except.ok a : Except ε α).isOk = true := rfl

@[simp] theorem exisOk_error (e : ε) :
    (Except.error e : Except ε α).isOk = false := rfl

@[simp] theorem exmap_isOk (g : α → β) (x : Except ε α) :
    (g <$> x).isOk = x.isOk := by cases x <;> rfl

theorem exbind_fail_first (x : Except ε α) (f : α → Except ε β)
    (h : x.isOk = false) : (x >>= f).isOk = false := by
  cases x with
  | ok a => simp at h
  | error e => rfl

theorem exbind_fail_second (x : Except ε α) (f : α → Except ε β)
    (h : ∀ a, (f a).isOk = false) : (x >>= f).isOk = false := by
  cases x with
  | ok a => simpa using h a
  | error e => rfl

/-! Round-trip of the codec at the structured-value level. -/

theorem closedReasonOfString_wire (r : ConnectionClosedReason) :
    closedReasonOfString r.wire = .ok r := by cases r <;> rfl

theorem discReasonOfString_wire (r : RoomDisconnectedReason) :
    discReasonOfString r.wire = .ok r := by cases r <;> rfl

theorem roleOfString_wire (r : RoomUserRole) : roleOfString r.wire = .ok r := by
  cases r <;> rfl

theorem parseUser_userVal (u : RoomUser) (h : isUuid u.id = true) :
    parseUser (userVal u) = .ok u := by
  simp [userVal, parseUser, getUuid, getStr, getRole, mlookup, h,
    roleOfString_wire]

theorem parseUsers_map_userVal (us : List RoomUser)
    (h : us.all (fun u => isUuid u.id) = true) :
    parseUsers (us.map userVal) = .ok us := by
  induction us with
  | nil => rfl
  | cons u rest ih =>
    simp only [List.all_cons, Bool.and_eq_true] at h
    simp [parseUsers, parseUser_userVal u h.1, ih h.2]

theorem parseMessage_encodeMessageVal (now : Int) (b : MessageBody)
    (h : bodyValid b = true) :
    parseMessage (encodeMessageVal now b) = .ok { t := now, body := b } := by
  cases b with
  | connectionLogin u k =>
    cases k with
    | none =>
      simp [encodeMessageVal, MessageBody.m, MessageBody.fields, parseMessage,
        parseMeta, parseBody, parseBodyTagged, parseLogin, getStr, getOptStr,
        mlookup]
    | some s =>
      simp [encodeMessageVal, MessageBody.m, MessageBody.fields, parseMessage,
        parseMeta, parseBody, parseBodyTagged, parseLogin, getStr, getOptStr,
        mlookup]
  | connectionClientError msg =>
    simp [encodeMessageVal, MessageBody.m, MessageBody.fields, parseMessage,
      parseMeta, parseBody, parseBodyTagged, parseClientError, getStr, mlookup]
  | connectionClosed r msg =>
    simp [encodeMessageVal, MessageBody.m, MessageBody.fields, parseMessage,
      parseMeta, parseBody, parseBodyTagged, parseClosed, getClosedReason,
      getStr, mlookup, closedReasonOfString_wire]
  | roomCreate n p =>
    simp [encodeMessageVal, MessageBody.m, MessageBody.fields, parseMessage,
      parseMeta, parseBody, parseBodyTagged, parseCreate, getStr, mlookup]
  | roomJoin i p =>
    simp only [bodyValid] at h
    simp [encodeMessageVal, MessageBody.m, MessageBody.fields, parseMessage,
      parseMeta, parseBody, parseBodyTagged, parseJoin, getUuid, getStr,
      mlookup, h]
  | roomDisconnected r =>
    simp [encodeMessageVal, MessageBody.m, MessageBody.fields, parseMessage,
      parseMeta, parseBody, parseBodyTagged, parseDisconnected, getDiscReason,
      mlookup, discReasonOfString_wire]
  | roomState i n p us =>
    simp only [bodyValid, Bool.and_eq_true] at h
    simp [encodeMessageVal, MessageBody.m, MessageBody.fields, parseMessage,
      parseMeta, parseBody, parseBodyTagged, parseState, getUuid, getStr,
      getUsers, mlookup, h.1, parseUsers_map_userVal us h.2]
  | connectionLoginAck =>
    simp [encodeMessageVal, MessageBody.m, MessageBody.fields, parseMessage,
      parseMeta, parseBody, parseBodyTagged, mlookup]
  | connectionPing =>
    simp [encodeMessageVal, MessageBody.m, MessageBody.fields, parseMessage,
      parseMeta, parseBody, parseBodyTagged, mlookup]
  | connectionPong =>
    simp [encodeMessageVal, MessageBody.m, MessageBody.fields, parseMessage,
      parseMeta, parseBody, parseBodyTagged, mlookup]
  | connectionKeepalive =>
    simp [encodeMessageVal, MessageBody.m, MessageBody.fields, parseMessage,
      parseMeta, parseBody, parseBodyTagged, mlookup]
  | roomCreateAck =>
    simp [encodeMessageVal, MessageBody.m, MessageBody.fields, parseMessage,
      parseMeta, parseBody, parseBodyTagged, mlookup]
  | roomClose =>
    simp [encodeMessageVal, MessageBody.m, MessageBody.fields, parseMessage,
      parseMeta, parseBody, parseBodyTagged, mlookup]
  | roomCloseAck =>
    simp [encodeMessageVal, MessageBody.m, MessageBody.fields, parseMessage,
      parseMeta, parseBody, parseBodyTagged, mlookup]
  | roomJoinAck =>
    simp [encodeMessageVal, MessageBody.m, MessageBody.fields, parseMessage,
      parseMeta, parseBody, parseBodyTagged, mlookup]
  | roomLeave =>
    simp [encodeMessageVal, MessageBody.m, MessageBody.fields, parseMessage,
      parseMeta, parseBody, parseBodyTagged, mlookup]
  | roomLeaveAck =>
    simp [encodeMessageVal, MessageBody.m, MessageBody.fields, parseMessage,
      parseMeta, parseBody, parseBodyTagged, mlookup]
  | roomRequestState =>
    simp [encodeMessageVal, MessageBody.m, MessageBody.fields, parseMessage,
      parseMeta, parseBody, parseBodyTagged, mlookup]

/-! Schema tables used to state the fail-closed property of decoding.
They restate the zod schema shape declaratively, independently of the
parser, so that the theorems compare the two. -/

/-- Domain of ConnectionClosedReasonSchema. -/
def closedReasonStrings : List String :=
  ["unauthorized", "server_error", "room_closed", "timeout", "unknown"]

/-- Domain of RoomDisconnectedReason. -/
def discReasonStrings : List String :=
  ["closed_by_host", "unauthorized", "server_error"]

/-- Domain of RoomUserRoleSchema. -/
def roleStrings : List String := ["host", "guest"]

/-- RoomUserSchema as a Boolean acceptance check on a generic value. -/
def userOk (v : Value) : Bool :=
  match v with
  | .map es =>
    (match mlookup es "id" with
     | some (.str s) => isUuid s
     | _ => false) &&
    ((match mlookup es "name" with
      | some (.str _) => true
      | _ => false) &&
     (match mlookup es "role" with
      | some (.str s) => decide (s ∈ roleStrings)
      | _ => false))
  | _ => false

/-- Field types appearing in the message schema. -/
inductive FieldTy where
  | strTy
  | numTy
  | uuidTy
  | optStrTy
  | closedReasonTy
  | discReasonTy
  | usersTy
deriving DecidableEq

/-- Acceptance of a present field value by its schema type. -/
def FieldTy.ok : FieldTy → Value → Bool
  | .strTy, .str _ => true
  | .numTy, .num _ => true
  | .uuidTy, .str s => isUuid s
  | .optStrTy, .str _ => true
  | .closedReasonTy, .str s => decide (s ∈ closedReasonStrings)
  | .discReasonTy, .str s => decide (s ∈ discReasonStrings)
  | .usersTy, .arr l => l.all userOk
  | _, _ => false

/-- Required fields of each message variant: the timestamp plus every
non-optional body field (api_key is the single optional field). -/
def requiredFields (tag : String) : List String :=
  if tag = "connection::login/v1" then ["t", "username"]
  else if tag = "connection::client_error/v1" then ["t", "message"]
  else if tag = "connection::closed/v1" then ["t", "reason", "message"]
  else if tag = "room::create/v1" then ["t", "name", "password"]
  else if tag = "room::join/v1" then ["t", "id", "password"]
  else if tag = "room::disconnected/v1" then ["t", "reason"]
  else if tag = "room::state/v1" then ["t", "id", "name", "password", "users"]
  else ["t"]

/-- Typed fields of each message variant, optional ones included. -/
def fieldSpecs (tag : String) : List (String × FieldTy) :=
  if tag = "connection::login/v1" then
    [("t", .numTy), ("username", .strTy), ("api_key", .optStrTy)]
  else if tag = "connection::client_error/v1" then
    [("t", .numTy), ("message", .strTy)]
  else if tag = "connection::closed/v1" then
    [("t", .numTy), ("reason", .closedReasonTy), ("message", .strTy)]
  else if tag = "room::create/v1" then
    [("t", .numTy), ("name", .strTy), ("password", .strTy)]
  else if tag = "room::join/v1" then
    [("t", .numTy), ("id", .uuidTy), ("password", .strTy)]
  else if tag = "room::disconnected/v1" then
    [("t", .numTy), ("reason", .discReasonTy)]
  else if tag = "room::state/v1" then
    [("t", .numTy), ("id", .uuidTy), ("name", .strTy), ("password", .strTy),
     ("users", .usersTy)]
  else [("t", .numTy)]

/-! Getter-level lemmas bridging the parsers and the schema tables. -/

@[simp] theorem exisOk_if_bool (b : Bool) (a : α) (e : ε) :
    (if b then (Except.ok a : Except ε α) else .error e).isOk = b := by
  cases b <;> rfl

theorem exbind_indep_isOk (x : Except ε α) (y : α → Except ε β) (c : Bool)
    (h : ∀ a, (y a).isOk = c) : (x >>= y).isOk = (x.isOk && c) := by
  cases x with
  | ok a => simpa using h a
  | error e => rfl

theorem exbind_eq_ok (x : Except ε α) (f : α → Except ε β) (b : β)
    (h : (x >>= f) = .ok b) : ∃ a, x = .ok a ∧ f a = .ok b := by
  cases x with
  | ok a => exact ⟨a, rfl, h⟩
  | error e => simp at h

theorem exmap_eq_ok (g : α → β) (x : Except ε α) (b : β)
    (h : (g <$> x) = .ok b) : ∃ a, x = .ok a ∧ g a = b := by
  cases x with
  | ok a => exact ⟨a, rfl, by simpa using h⟩
  | error e => simp at h

theorem getStr_isOk_match (es : List (String × Value)) (k : String) :
    (getStr es k).isOk =
      (match mlookup es k with
       | some (.str _) => true
       | _ => false) := by
  unfold getStr
  cases h : mlookup es k with
  | none => rfl
  | some v => cases v <;> rfl

theorem getUuid_isOk_match (es : List (String × Value)) (k : String) :
    (getUuid es k).isOk =
      (match mlookup es k with
       | some (.str s) => isUuid s
       | _ => false) := by
  unfold getUuid
  cases h : mlookup es k with
  | none => rfl
  | some v => cases v <;> simp

theorem roleOfString_isOk (s : String) :
    (roleOfString s).isOk = decide (s ∈ roleStrings) := by
  unfold roleOfString roleStrings
  split_ifs with h1 h2
  · subst h1; simp
  · subst h2; simp
  · simp [h1, h2]

theorem closedReasonOfString_isOk (s : String) :
    (closedReasonOfString s).isOk = decide (s ∈ closedReasonStrings) := by
  unfold closedReasonOfString closedReasonStrings
  split_ifs with h1 h2 h3 h4 h5
  · subst h1; simp
  · subst h2; simp
  · subst h3; simp
  · subst h4; simp
  · subst h5; simp
  · simp [h1, h2, h3, h4, h5]

theorem discReasonOfString_isOk (s : String) :
    (discReasonOfString s).isOk = decide (s ∈ discReasonStrings) := by
  unfold discReasonOfString discReasonStrings
  split_ifs with h1 h2 h3
  · subst h1; simp
  · subst h2; simp
  · subst h3; simp
  · simp [h1, h2, h3]

theorem getRole_isOk_match (es : List (String × Value)) (k : String) :
    (getRole es k).isOk =
      (match mlookup es k with
       | some (.str s) => decide (s ∈ roleStrings)
       | _ => false) := by
  unfold getRole
  cases h : mlookup es k with
  | none => rfl
  | some v => cases v <;> simp [roleOfString_isOk]

theorem parseUser_isOk (v : Value) : (parseUser v).isOk = userOk v := by
  cases v <;> try rfl
  rename_i es
  have step : (parseUser (.map es)).isOk =
      ((getUuid es "id").isOk &&
        ((getStr es "name").isOk && (getRole es "role").isOk)) := by
    cases h1 : getUuid es "id" with
    | error e => simp [parseUser, h1]
    | ok i =>
      cases h2 : getStr es "name" with
      | error e => simp [parseUser, h1, h2]
      | ok n =>
        cases h3 : getRole es "role" with
        | error e => simp [parseUser, h1, h2, h3]
        | ok r => simp [parseUser, h1, h2, h3]
  rw [step, getUuid_isOk_match, getStr_isOk_match, getRole_isOk_match]
  rfl

theorem parseUsers_isOk (l : List Value) : (parseUsers l).isOk = l.all userOk := by
  induction l with
  | nil => rfl
  | cons v rest ih =>
    have step : (parseUsers (v :: rest)).isOk =
        ((parseUser v).isOk && (parseUsers rest).isOk) := by
      cases hA : parseUser v with
      | error e => simp [parseUsers, hA]
      | ok u =>
        cases hB : parseUsers rest with
        | error e => simp [parseUsers, hA, hB]
        | ok us => simp [parseUsers, hA, hB]
    rw [step, parseUser_isOk, ih, List.all_cons]

/-! Fail-closed behaviour of MessageSchema.parse. -/

theorem parseMessage_fail_of_meta (es : List (String × Value))
    (h : (parseMeta es).isOk = false) :
    (parseMessage (Value.map es)).isOk = false := by
  cases hm : parseMeta es with
  | ok t => rw [hm] at h; simp at h
  | error e => simp [parseMessage, hm]

theorem parseMessage_fail_of_body (es : List (String × Value))
    (h : (parseBody es).isOk = false) :
    (parseMessage (Value.map es)).isOk = false := by
  cases hm : parseMeta es with
  | error e => simp [parseMessage, hm]
  | ok t =>
    cases hb : parseBody es with
    | error e => simp [parseMessage, hm, hb]
    | ok b => rw [hb] at h; simp at h

theorem parseBody_eq_tagged (es : List (String × Value)) (tag : String)
    (hm : mlookup es "m" = some (.str tag)) :
    parseBody es = parseBodyTagged tag es := by
  unfold parseBody
  rw [hm]

theorem decode_fail_unknown_tag (es : List (String × Value)) (tag : String)
    (hm : mlookup es "m" = some (.str tag)) (hk : tag ∉ knownTags) :
    (parseMessage (Value.map es)).isOk = false := by
  apply parseMessage_fail_of_body
  rw [parseBody_eq_tagged es tag hm]
  simp only [knownTags, List.mem_cons, List.not_mem_nil, or_false, not_or] at hk
  obtain ⟨h1, h2, h3, h4, h5, h6, h7, h8, h9, h10, h11, h12, h13, h14, h15,
    h16, h17, h18⟩ := hk
  simp [parseBodyTagged, h1, h2, h3, h4, h5, h6, h7, h8, h9, h10, h11, h12,
    h13, h14, h15, h16, h17, h18]

theorem decode_fail_missing_field (es : List (String × Value)) (tag f : String)
    (hm : mlookup es "m" = some (.str tag)) (hf : f ∈ requiredFields tag)
    (hnone : mlookup es f = none) :
    (parseMessage (Value.map es)).isOk = false := by
  by_cases ht : f = "t"
  · subst ht
    exact parseMessage_fail_of_meta es (by simp [parseMeta, hnone])
  · apply parseMessage_fail_of_body
    rw [parseBody_eq_tagged es tag hm]
    unfold requiredFields at hf
    split_ifs at hf with h1 h2 h3 h4 h5 h6 h7
    · subst h1
      simp only [List.mem_cons, List.not_mem_nil, or_false] at hf
      rcases hf with rfl | rfl
      · exact absurd rfl ht
      · show (parseLogin es).isOk = false
        unfold parseLogin
        exact exbind_fail_first _ _ (by simp [getStr, hnone])
    · subst h2
      simp only [List.mem_cons, List.not_mem_nil, or_false] at hf
      rcases hf with rfl | rfl
      · exact absurd rfl ht
      · show (parseClientError es).isOk = false
        unfold parseClientError
        exact exbind_fail_first _ _ (by simp [getStr, hnone])
    · subst h3
      simp only [List.mem_cons, List.not_mem_nil, or_false] at hf
      rcases hf with rfl | rfl | rfl
      · exact absurd rfl ht
      · show (parseClosed es).isOk = false
        unfold parseClosed
        exact exbind_fail_first _ _ (by simp [getClosedReason, hnone])
      · show (parseClosed es).isOk = false
        unfold parseClosed
        apply exbind_fail_second
        intro r
        simp [getStr, hnone]
    · subst h4
      simp only [List.mem_cons, List.not_mem_nil, or_false] at hf
      rcases hf with rfl | rfl | rfl
      · exact absurd rfl ht
      · show (parseCreate es).isOk = false
        unfold parseCreate
        exact exbind_fail_first _ _ (by simp [getStr, hnone])
      · show (parseCreate es).isOk = false
        unfold parseCreate
        apply exbind_fail_second
        intro n
        simp [getStr, hnone]
    · subst h5
      simp only [List.mem_cons, List.not_mem_nil, or_false] at hf
      rcases hf with rfl | rfl | rfl
      · exact absurd rfl ht
      · show (parseJoin es).isOk = false
        unfold parseJoin
        exact exbind_fail_first _ _ (by simp [getUuid, hnone])
      · show (parseJoin es).isOk = false
        unfold parseJoin
        apply exbind_fail_second
        intro i
        simp [getStr, hnone]
    · subst h6
      simp only [List.mem_cons, List.not_mem_nil, or_false] at hf
      rcases hf with rfl | rfl
      · exact absurd rfl ht
      · show (parseDisconnected es).isOk = false
        unfold parseDisconnected
        exact exbind_fail_first _ _ (by simp [getDiscReason, hnone])
    · subst h7
      simp only [List.mem_cons, List.not_mem_nil, or_false] at hf
      rcases hf with rfl | rfl | rfl | rfl | rfl
      · exact absurd rfl ht
      · show (parseState es).isOk = false
        unfold parseState
        exact exbind_fail_first _ _ (by simp [getUuid, hnone])
      · show (parseState es).isOk = false
        unfold parseState
        apply exbind_fail_second
        intro i
        apply exbind_fail_first
        simp [getStr, hnone]
      · show (parseState es).isOk = false
        unfold parseState
        apply exbind_fail_second
        intro i
        apply exbind_fail_second
        intro n
        apply exbind_fail_first
        simp [getStr, hnone]
      · show (parseState es).isOk = false
        unfold parseState
        apply exbind_fail_second
        intro i
        apply exbind_fail_second
        intro n
        apply exbind_fail_second
        intro p
        simp [getUsers, hnone]
    · simp only [List.mem_singleton] at hf
      exact absurd hf ht

/-! Wrong-typed fields: a present field value rejected by its schema type
makes the whole decode fail. -/

theorem parseMeta_isOk_match (es : List (String × Value)) :
    (parseMeta es).isOk =
      (match mlookup es "t" with
       | some (.num _) => true
       | _ => false) := by
  unfold parseMeta
  cases h : mlookup es "t" with
  | none => rfl
  | some v => cases v <;> rfl

theorem getOptStr_isOk_match (es : List (String × Value)) (k : String) :
    (getOptStr es k).isOk =
      (match mlookup es k with
       | none => true
       | some (.str _) => true
       | some _ => false) := by
  unfold getOptStr
  cases h : mlookup es k with
  | none => rfl
  | some v => cases v <;> rfl

theorem getClosedReason_isOk_match (es : List (String × Value)) (k : String) :
    (getClosedReason es k).isOk =
      (match mlookup es k with
       | some (.str s) => decide (s ∈ closedReasonStrings)
       | _ => false) := by
  unfold getClosedReason
  cases h : mlookup es k with
  | none => rfl
  | some v => cases v <;> simp [closedReasonOfString_isOk]

theorem getDiscReason_isOk_match (es : List (String × Value)) (k : String) :
    (getDiscReason es k).isOk =
      (match mlookup es k with
       | some (.str s) => decide (s ∈ discReasonStrings)
       | _ => false) := by
  unfold getDiscReason
  cases h : mlookup es k with
  | none => rfl
  | some v => cases v <;> simp [discReasonOfString_isOk]

theorem getUsers_isOk_match (es : List (String × Value)) (k : String) :
    (getUsers es k).isOk =
      (match mlookup es k with
       | some (.arr l) => l.all userOk
       | _ => false) := by
  unfold getUsers
  cases h : mlookup es k with
  | none => rfl
  | some v => cases v <;> simp [parseUsers_isOk]

theorem parseMeta_fail_ty (es : List (String × Value)) (v : Value)
    (hval : mlookup es "t" = some v) (hty : FieldTy.numTy.ok v = false) :
    (parseMeta es).isOk = false := by
  rw [parseMeta_isOk_match, hval]
  cases v <;> simp_all [FieldTy.ok]

theorem getStr_fail_ty (es : List (String × Value)) (k : String) (v : Value)
    (hval : mlookup es k = some v) (hty : FieldTy.strTy.ok v = false) :
    (getStr es k).isOk = false := by
  rw [getStr_isOk_match, hval]
  cases v <;> simp_all [FieldTy.ok]

theorem getOptStr_fail_ty (es : List (String × Value)) (k : String) (v : Value)
    (hval : mlookup es k = some v) (hty : FieldTy.optStrTy.ok v = false) :
    (getOptStr es k).isOk = false := by
  rw [getOptStr_isOk_match, hval]
  cases v <;> simp_all [FieldTy.ok]

theorem getUuid_fail_ty (es : List (String × Value)) (k : String) (v : Value)
    (hval : mlookup es k = some v) (hty : FieldTy.uuidTy.ok v = false) :
    (getUuid es k).isOk = false := by
  rw [getUuid_isOk_match, hval]
  cases v <;> simp_all [FieldTy.ok]

theorem getClosedReason_fail_ty (es : List (String × Value)) (k : String)
    (v : Value) (hval : mlookup es k = some v)
    (hty : FieldTy.closedReasonTy.ok v = false) :
    (getClosedReason es k).isOk = false := by
  rw [getClosedReason_isOk_match, hval]
  cases v <;> simp_all [FieldTy.ok]

theorem getDiscReason_fail_ty (es : List (String × Value)) (k : String)
    (v : Value) (hval : mlookup es k = some v)
    (hty : FieldTy.discReasonTy.ok v = false) :
    (getDiscReason es k).isOk = false := by
  rw [getDiscReason_isOk_match, hval]
  cases v <;> simp_all [FieldTy.ok]

theorem getUsers_fail_ty (es : List (String × Value)) (k : String) (v : Value)
    (hval : mlookup es k = some v) (hty : FieldTy.usersTy.ok v = false) :
    (getUsers es k).isOk = false := by
  rw [getUsers_isOk_match, hval]
  cases v <;> simp_all [FieldTy.ok]

theorem decode_fail_wrong_type (es : List (String × Value)) (tag f : String)
    (ty : FieldTy) (v : Value) (hm : mlookup es "m" = some (.str tag))
    (hspec : (f, ty) ∈ fieldSpecs tag) (hval : mlookup es f = some v)
    (hty : ty.ok v = false) :
    (parseMessage (Value.map es)).isOk = false := by
  unfold fieldSpecs at hspec
  split_ifs at hspec with h1 h2 h3 h4 h5 h6 h7
  · subst h1
    simp only [List.mem_cons, List.not_mem_nil, or_false, Prod.mk.injEq] at hspec
    rcases hspec with ⟨rfl, rfl⟩ | ⟨rfl, rfl⟩ | ⟨rfl, rfl⟩
    · exact parseMessage_fail_of_meta es (parseMeta_fail_ty es v hval hty)
    · apply parseMessage_fail_of_body
      rw [parseBody_eq_tagged es _ hm]
      show (parseLogin es).isOk = false
      unfold parseLogin
      exact exbind_fail_first _ _ (getStr_fail_ty es _ v hval hty)
    · apply parseMessage_fail_of_body
      rw [parseBody_eq_tagged es _ hm]
      show (parseLogin es).isOk = false
      unfold parseLogin
      apply exbind_fail_second
      intro u
      apply exbind_fail_first
      exact getOptStr_fail_ty es _ v hval hty
  · subst h2
    simp only [List.mem_cons, List.not_mem_nil, or_false, Prod.mk.injEq] at hspec
    rcases hspec with ⟨rfl, rfl⟩ | ⟨rfl, rfl⟩
    · exact parseMessage_fail_of_meta es (parseMeta_fail_ty es v hval hty)
    · apply parseMessage_fail_of_body
      rw [parseBody_eq_tagged es _ hm]
      show (parseClientError es).isOk = false
      unfold parseClientError
      exact exbind_fail_first _ _ (getStr_fail_ty es _ v hval hty)
  · subst h3
    simp only [List.mem_cons, List.not_mem_nil, or_false, Prod.mk.injEq] at hspec
    rcases hspec with ⟨rfl, rfl⟩ | ⟨rfl, rfl⟩ | ⟨rfl, rfl⟩
    · exact parseMessage_fail_of_meta es (parseMeta_fail_ty es v hval hty)
    · apply parseMessage_fail_of_body
      rw [parseBody_eq_tagged es _ hm]
      show (parseClosed es).isOk = false
      unfold parseClosed
      exact exbind_fail_first _ _ (getClosedReason_fail_ty es _ v hval hty)
    · apply parseMessage_fail_of_body
      rw [parseBody_eq_tagged es _ hm]
      show (parseClosed es).isOk = false
      unfold parseClosed
      apply exbind_fail_second
      intro r
      apply exbind_fail_first
      exact getStr_fail_ty es _ v hval hty
  · subst h4
    simp only [List.mem_cons, List.not_mem_nil, or_false, Prod.mk.injEq] at hspec
    rcases hspec with ⟨rfl, rfl⟩ | ⟨rfl, rfl⟩ | ⟨rfl, rfl⟩
    · exact parseMessage_fail_of_meta es (parseMeta_fail_ty es v hval hty)
    · apply parseMessage_fail_of_body
      rw [parseBody_eq_tagged es _ hm]
      show (parseCreate es).isOk = false
      unfold parseCreate
      exact exbind_fail_first _ _ (getStr_fail_ty es _ v hval hty)
    · apply parseMessage_fail_of_body
      rw [parseBody_eq_tagged es _ hm]
      show (parseCreate es).isOk = false
      unfold parseCreate
      apply exbind_fail_second
      intro n
      apply exbind_fail_first
      exact getStr_fail_ty es _ v hval hty
  · subst h5
    simp only [List.mem_cons, List.not_mem_nil, or_false, Prod.mk.injEq] at hspec
    rcases hspec with ⟨rfl, rfl⟩ | ⟨rfl, rfl⟩ | ⟨rfl, rfl⟩
    · exact parseMessage_fail_of_meta es (parseMeta_fail_ty es v hval hty)
    · apply parseMessage_fail_of_body
      rw [parseBody_eq_tagged es _ hm]
      show (parseJoin es).isOk = false
      unfold parseJoin
      exact exbind_fail_first _ _ (getUuid_fail_ty es _ v hval hty)
    · apply parseMessage_fail_of_body
      rw [parseBody_eq_tagged es _ hm]
      show (parseJoin es).isOk = false
      unfold parseJoin
      apply exbind_fail_second
      intro i
      apply exbind_fail_first
      exact getStr_fail_ty es _ v hval hty
  · subst h6
    simp only [List.mem_cons, List.not_mem_nil, or_false, Prod.mk.injEq] at hspec
    rcases hspec with ⟨rfl, rfl⟩ | ⟨rfl, rfl⟩
    · exact parseMessage_fail_of_meta es (parseMeta_fail_ty es v hval hty)
    · apply parseMessage_fail_of_body
      rw [parseBody_eq_tagged es _ hm]
      show (parseDisconnected es).isOk = false
      unfold parseDisconnected
      exact exbind_fail_first _ _ (getDiscReason_fail_ty es _ v hval hty)
  · subst h7
    simp only [List.mem_cons, List.not_mem_nil, or_false, Prod.mk.injEq] at hspec
    rcases hspec with ⟨rfl, rfl⟩ | ⟨rfl, rfl⟩ | ⟨rfl, rfl⟩ | ⟨rfl, rfl⟩ | ⟨rfl, rfl⟩
    · exact parseMessage_fail_of_meta es (parseMeta_fail_ty es v hval hty)
    · apply parseMessage_fail_of_body
      rw [parseBody_eq_tagged es _ hm]
      show (parseState es).isOk = false
      unfold parseState
      exact exbind_fail_first _ _ (getUuid_fail_ty es _ v hval hty)
    · apply parseMessage_fail_of_body
      rw [parseBody_eq_tagged es _ hm]
      show (parseState es).isOk = false
      unfold parseState
      apply exbind_fail_second
      intro i
      apply exbind_fail_first
      exact getStr_fail_ty es _ v hval hty
    · apply parseMessage_fail_of_body
      rw [parseBody_eq_tagged es _ hm]
      show (parseState es).isOk = false
      unfold parseState
      apply exbind_fail_second
      intro i
      apply exbind_fail_second
      intro n
      apply exbind_fail_first
      exact getStr_fail_ty es _ v hval hty
    · apply parseMessage_fail_of_body
      rw [parseBody_eq_tagged es _ hm]
      show (parseState es).isOk = false
      unfold parseState
      apply exbind_fail_second
      intro i
      apply exbind_fail_second
      intro n
      apply exbind_fail_second
      intro p
      apply exbind_fail_first
      exact getUsers_fail_ty es _ v hval hty
  · simp only [List.mem_singleton, Prod.mk.injEq] at hspec
    obtain ⟨rfl, rfl⟩ := hspec
    exact parseMessage_fail_of_meta es (parseMeta_fail_ty es v hval hty)

/-! Soundness of a successful decode: the tag is known and the typed body
satisfies the schema refinements. -/

theorem getUuid_ok_uuid (es : List (String × Value)) (k s : String)
    (hok : getUuid es k = .ok s) : isUuid s = true := by
  unfold getUuid at hok
  cases h : mlookup es k <;> rw [h] at hok
  · simp at hok
  · rename_i v
    cases v with
    | str s2 =>
      have hok2 : (if isUuid s2 = true then (Except.ok s2 : Except String String)
          else .error ("expected uuid in field " ++ k)) = .ok s := hok
      by_cases hu : isUuid s2 = true
      · rw [if_pos hu] at hok2
        injection hok2 with h2
        subst h2
        exact hu
      · rw [if_neg hu] at hok2
        simp at hok2
    | nil => simp at hok
    | bool b => simp at hok
    | num n => simp at hok
    | bin bs => simp at hok
    | arr l => simp at hok
    | map es2 => simp at hok

theorem parseUser_ok_uuid (v : Value) (u : RoomUser)
    (hok : parseUser v = .ok u) : isUuid u.id = true := by
  cases v with
  | map es =>
    unfold parseUser at hok
    obtain ⟨i, hi, hok⟩ := exbind_eq_ok _ _ _ hok
    obtain ⟨n, hn, hok⟩ := exbind_eq_ok _ _ _ hok
    cases hr : getRole es "role" with
    | error e => rw [hr] at hok; simp at hok
    | ok r =>
      rw [hr] at hok
      simp only [expure_eq_ok, exbind_ok, Except.ok.injEq] at hok
      subst hok
      exact getUuid_ok_uuid es "id" i hi
  | nil => simp [parseUser] at hok
  | bool b => simp [parseUser] at hok
  | num n => simp [parseUser] at hok
  | str s => simp [parseUser] at hok
  | bin bs => simp [parseUser] at hok
  | arr l => simp [parseUser] at hok

theorem parseUsers_ok_valid (l : List Value) (us : List RoomUser)
    (hok : parseUsers l = .ok us) :
    us.all (fun u => isUuid u.id) = true := by
  induction l generalizing us with
  | nil =>
    unfold parseUsers at hok
    injection hok with h
    subst h
    rfl
  | cons v rest ih =>
    unfold parseUsers at hok
    obtain ⟨u, hu, hok⟩ := exbind_eq_ok _ _ _ hok
    obtain ⟨us2, hus, hok⟩ := exbind_eq_ok _ _ _ hok
    simp only [expure_eq_ok, Except.ok.injEq] at hok
    subst hok
    simp only [List.all_cons, Bool.and_eq_true]
    exact ⟨parseUser_ok_uuid v u hu, ih us2 hus⟩

theorem getUsers_ok_valid (es : List (String × Value)) (k : String)
    (us : List RoomUser) (hok : getUsers es k = .ok us) :
    us.all (fun u => isUuid u.id) = true := by
  unfold getUsers at hok
  cases h : mlookup es k <;> rw [h] at hok
  · simp at hok
  · rename_i v
    cases v with
    | arr l => exact parseUsers_ok_valid l us hok
    | nil => simp at hok
    | bool b => simp at hok
    | num n => simp at hok
    | str s => simp at hok
    | bin bs => simp at hok
    | map es2 => simp at hok

set_option maxHeartbeats 2000000 in
theorem parseBodyTagged_ok (tag : String) (es : List (String × Value))
    (b : MessageBody) (hok : parseBodyTagged tag es = .ok b) :
    b.m ∈ knownTags ∧ bodyValid b = true := by
  unfold parseBodyTagged at hok
  by_cases t1 : tag = "connection::login/v1"
  · rw [if_pos t1] at hok
    unfold parseLogin at hok
    obtain ⟨u, hu, hok⟩ := exbind_eq_ok _ _ _ hok
    obtain ⟨k, hk, hok⟩ := exbind_eq_ok _ _ _ hok
    simp only [expure_eq_ok, Except.ok.injEq] at hok
    subst hok
    exact ⟨by simp [MessageBody.m, knownTags], rfl⟩
  rw [if_neg t1] at hok
  by_cases t2 : tag = "connection::login_ack/v1"
  · rw [if_pos t2] at hok
    injection hok with h
    subst h
    exact ⟨by simp [MessageBody.m, knownTags], rfl⟩
  rw [if_neg t2] at hok
  by_cases t3 : tag = "connection::ping/v1"
  · rw [if_pos t3] at hok
    injection hok with h
    subst h
    exact ⟨by simp [MessageBody.m, knownTags], rfl⟩
  rw [if_neg t3] at hok
  by_cases t4 : tag = "connection::pong/v1"
  · rw [if_pos t4] at hok
    injection hok with h
    subst h
    exact ⟨by simp [MessageBody.m, knownTags], rfl⟩
  rw [if_neg t4] at hok
  by_cases t5 : tag = "connection::client_error/v1"
  · rw [if_pos t5] at hok
    unfold parseClientError at hok
    obtain ⟨msg, hmsg, hok⟩ := exbind_eq_ok _ _ _ hok
    simp only [expure_eq_ok, Except.ok.injEq] at hok
    subst hok
    exact ⟨by simp [MessageBody.m, knownTags], rfl⟩
  rw [if_neg t5] at hok
  by_cases t6 : tag = "connection::closed/v1"
  · rw [if_pos t6] at hok
    unfold parseClosed at hok
    obtain ⟨r, hr, hok⟩ := exbind_eq_ok _ _ _ hok
    obtain ⟨msg, hmsg, hok⟩ := exbind_eq_ok _ _ _ hok
    simp only [expure_eq_ok, Except.ok.injEq] at hok
    subst hok
    exact ⟨by simp [MessageBody.m, knownTags], rfl⟩
  rw [if_neg t6] at hok
  by_cases t7 : tag = "connection::keepalive/v1"
  · rw [if_pos t7] at hok
    injection hok with h
    subst h
    exact ⟨by simp [MessageBody.m, knownTags], rfl⟩
  rw [if_neg t7] at hok
  by_cases t8 : tag = "room::create/v1"
  · rw [if_pos t8] at hok
    unfold parseCreate at hok
    obtain ⟨n, hn, hok⟩ := exbind_eq_ok _ _ _ hok
    obtain ⟨p, hp, hok⟩ := exbind_eq_ok _ _ _ hok
    simp only [expure_eq_ok, Except.ok.injEq] at hok
    subst hok
    exact ⟨by simp [MessageBody.m, knownTags], rfl⟩
  rw [if_neg t8] at hok
  by_cases t9 : tag = "room::create_ack/v1"
  · rw [if_pos t9] at hok
    injection hok with h
    subst h
    exact ⟨by simp [MessageBody.m, knownTags], rfl⟩
  rw [if_neg t9] at hok
  by_cases t10 : tag = "room::close/v1"
  · rw [if_pos t10] at hok
    injection hok with h
    subst h
    exact ⟨by simp [MessageBody.m, knownTags], rfl⟩
  rw [if_neg t10] at hok
  by_cases t11 : tag = "room::close_ack/v1"
  · rw [if_pos t11] at hok
    injection hok with h
    subst h
    exact ⟨by simp [MessageBody.m, knownTags], rfl⟩
  rw [if_neg t11] at hok
  by_cases t12 : tag = "room::join/v1"
  · rw [if_pos t12] at hok
    unfold parseJoin at hok
    obtain ⟨i, hi, hok⟩ := exbind_eq_ok _ _ _ hok
    obtain ⟨p, hp, hok⟩ := exbind_eq_ok _ _ _ hok
    simp only [expure_eq_ok, Except.ok.injEq] at hok
    subst hok
    exact ⟨by simp [MessageBody.m, knownTags],
      by simpa [bodyValid] using getUuid_ok_uuid es "id" i hi⟩
  rw [if_neg t12] at hok
  by_cases t13 : tag = "room::join_ack/v1"
  · rw [if_pos t13] at hok
    injection hok with h
    subst h
    exact ⟨by simp [MessageBody.m, knownTags], rfl⟩
  rw [if_neg t13] at hok
  by_cases t14 : tag = "room::leave/v1"
  · rw [if_pos t14] at hok
    injection hok with h
    subst h
    exact ⟨by simp [MessageBody.m, knownTags], rfl⟩
  rw [if_neg t14] at hok
  by_cases t15 : tag = "room::leave_ack/v1"
  · rw [if_pos t15] at hok
    injection hok with h
    subst h
    exact ⟨by simp [MessageBody.m, knownTags], rfl⟩
  rw [if_neg t15] at hok
  by_cases t16 : tag = "room::disconnected/v1"
  · rw [if_pos t16] at hok
    unfold parseDisconnected at hok
    obtain ⟨r, hr, hok⟩ := exbind_eq_ok _ _ _ hok
    simp only [expure_eq_ok, Except.ok.injEq] at hok
    subst hok
    exact ⟨by simp [MessageBody.m, knownTags], rfl⟩
  rw [if_neg t16] at hok
  by_cases t17 : tag = "room::request_state/v1"
  · rw [if_pos t17] at hok
    injection hok with h
    subst h
    exact ⟨by simp [MessageBody.m, knownTags], rfl⟩
  rw [if_neg t17] at hok
  by_cases t18 : tag = "room::state/v1"
  · rw [if_pos t18] at hok
    unfold parseState at hok
    obtain ⟨i, hi, hok⟩ := exbind_eq_ok _ _ _ hok
    obtain ⟨n, hn, hok⟩ := exbind_eq_ok _ _ _ hok
    obtain ⟨p, hp, hok⟩ := exbind_eq_ok _ _ _ hok
    obtain ⟨us, hus, hok⟩ := exbind_eq_ok _ _ _ hok
    simp only [expure_eq_ok, Except.ok.injEq] at hok
    subst hok
    refine ⟨by simp [MessageBody.m, knownTags], ?_⟩
    simp only [bodyValid, Bool.and_eq_true]
    exact ⟨getUuid_ok_uuid es "id" i hi, getUsers_ok_valid es "users" us hus⟩
  rw [if_neg t18] at hok
  simp at hok


theorem parseBody_ok (es : List (String × Value)) (b : MessageBody)
    (hok : parseBody es = .ok b) : b.m ∈ knownTags ∧ bodyValid b = true := by
  unfold parseBody at hok
  cases h : mlookup es "m" <;> rw [h] at hok
  · simp at hok
  · rename_i v
    cases v with
    | str tag => exact parseBodyTagged_ok tag es b hok
    | nil => simp at hok
    | bool b2 => simp at hok
    | num n => simp at hok
    | bin bs => simp at hok
    | arr l => simp at hok
    | map es2 => simp at hok

theorem parseMessage_ok (v : Value) (msg : Message)
    (hok : parseMessage v = .ok msg) :
    msg.body.m ∈ knownTags ∧ bodyValid msg.body = true := by
  cases v with
  | map es =>
    unfold parseMessage at hok
    obtain ⟨t, ht, hok⟩ := exbind_eq_ok _ _ _ hok
    cases hb : parseBody es with
    | error e => rw [hb] at hok; simp at hok
    | ok b =>
      rw [hb] at hok
      simp only [expure_eq_ok, exbind_ok, Except.ok.injEq] at hok
      subst hok
      exact parseBody_ok es b hb
  | nil => simp [parseMessage] at hok
  | bool b => simp [parseMessage] at hok
  | num n => simp [parseMessage] at hok
  | str s => simp [parseMessage] at hok
  | bin bs => simp [parseMessage] at hok
  | arr l => simp [parseMessage] at hok

theorem decodeMessage_ok_sound (mdecode : List Nat → Except String Value)
    (data : List Nat) (msg : Message)
    (hok : decodeMessage mdecode data = .ok msg) :
    msg.body.m ∈ knownTags ∧ bodyValid msg.body = true := by
  unfold decodeMessage at hok
  obtain ⟨v, hv, hok⟩ := exbind_eq_ok _ _ _ hok
  exact parseMessage_ok v msg hok

/-! Connection Channel: the event logic of MessageChannel.  The state
holds the private open flag; decodeAttempts instruments how often the
inbound listener reaches the decode call. -/

/-- Payload of a websocket message event: either binary data or any other
kind of payload (the instanceof Uint8Array check fails on the latter). -/
inductive WsData where
  | bin (bytes : List Nat)
  | other
deriving DecidableEq

/-- Events delivered by the underlying websocket transport. -/
inductive WsEvent where
  | message (data : WsData)
  | error
  | close
deriving DecidableEq

/-- Events the channel dispatches outward. -/
inductive ChanEmit where
  | messageEvt (msg : Message)
  | closedEvt
deriving DecidableEq

/-- Observable channel state: the private open flag read by isOpen, plus
an instrumentation counter of decode attempts. -/
structure ChanState where
  openF : Bool
  decodeAttempts : Nat
deriving DecidableEq

/-- Channel state right after construction: open = true. -/
def initialChanState : ChanState := { openF := true, decodeAttempts := 0 }

/-- onClosed: set the open flag to false and dispatch the closed event.
The source has no guard against running twice. -/
def onClosed (st : ChanState) : ChanState × List ChanEmit :=
  ({ st with openF := false }, [.closedEvt])

/-- One websocket listener invocation: the message listener checks
instanceof Uint8Array, decodes, and dispatches a message event, catching
and logging decode failures; the error and close listeners both call
onClosed. -/
def handleWsEvent (mdecode : List Nat → Except String Value) (st : ChanState) :
    WsEvent → ChanState × List ChanEmit
  | .message .other => (st, [])
  | .message (.bin data) =>
    match decodeMessage mdecode data with
    | .ok msg => ({ st with decodeAttempts := st.decodeAttempts + 1 }, [.messageEvt msg])
    | .error _ => ({ st with decodeAttempts := st.decodeAttempts + 1 }, [])
  | .error => onClosed st
  | .close => onClosed st

/-- Run the channel over a sequence of transport events, collecting the
dispatched events in order. -/
def runChannel (mdecode : List Nat → Except String Value) :
    ChanState → List WsEvent → ChanState × List ChanEmit
  | st, [] => (st, [])
  | st, e :: rest =>
    ((runChannel mdecode (handleWsEvent mdecode st e).1 rest).1,
     (handleWsEvent mdecode st e).2 ++
       (runChannel mdecode (handleWsEvent mdecode st e).1 rest).2)

/-- Transport events that reach onClosed: a websocket error event or the
close event. -/
def isCloseSignal : WsEvent → Bool
  | .error => true
  | .close => true
  | .message _ => false

/-- Number of closed events in a dispatch list. -/
def countClosedEmits (l : List ChanEmit) : Nat :=
  l.countP fun e =>
    match e with
    | .closedEvt => true
    | _ => false

/-- wsSend: the underlying transport write, which may throw. -/
def wsSend (writeErr : Option String) (_bytes : List Nat) : Except String Unit :=
  match writeErr with
  | some e => .error e
  | none => .ok ()

/-- MessageChannel.send: encode and write inside try/catch; a throwing
transport write is logged and swallowed, so send itself never throws. -/
def send (mencode : Value → List Nat) (writeErr : Option String) (now : Int)
    (st : ChanState) (body : MessageBody) : Except String (ChanState × List ChanEmit) :=
  match wsSend writeErr (encodeMessage mencode now body) with
  | .ok _ => .ok (st, [])
  | .error _ => .ok (st, [])

theorem countClosedEmits_append (a b : List ChanEmit) :
    countClosedEmits (a ++ b) = countClosedEmits a + countClosedEmits b := by
  unfold countClosedEmits
  exact List.countP_append _ _ _

theorem handleWsEvent_closedCount (mdecode : List Nat → Except String Value)
    (st : ChanState) (e : WsEvent) :
    countClosedEmits (handleWsEvent mdecode st e).2 =
      (if isCloseSignal e then 1 else 0) := by
  cases e with
  | message d =>
    cases d with
    | other => rfl
    | bin data =>
      cases hd : decodeMessage mdecode data <;>
        simp [handleWsEvent, hd, countClosedEmits, isCloseSignal]
  | error => rfl
  | close => rfl

theorem runChannel_closedCount (mdecode : List Nat → Except String Value)
    (evts : List WsEvent) : ∀ st : ChanState,
    countClosedEmits (runChannel mdecode st evts).2 =
      evts.countP isCloseSignal := by
  induction evts with
  | nil => intro st; rfl
  | cons e rest ih =>
    intro st
    simp only [runChannel, countClosedEmits_append, handleWsEvent_closedCount,
      ih, List.countP_cons]
    omega

theorem handleWsEvent_openF (mdecode : List Nat → Except String Value)
    (st : ChanState) (e : WsEvent) :
    (handleWsEvent mdecode st e).1.openF = (st.openF && !isCloseSignal e) := by
  cases e with
  | message d =>
    cases d with
    | other => simp [handleWsEvent, isCloseSignal]
    | bin data =>
      cases hd : decodeMessage mdecode data <;>
        simp [handleWsEvent, hd, isCloseSignal]
  | error => simp [handleWsEvent, onClosed, isCloseSignal]
  | close => simp [handleWsEvent, onClosed, isCloseSignal]

theorem runChannel_openF (mdecode : List Nat → Except String Value)
    (evts : List WsEvent) : ∀ st : ChanState,
    (runChannel mdecode st evts).1.openF =
      (st.openF && !evts.any isCloseSignal) := by
  induction evts with
  | nil => intro st; simp [runChannel]
  | cons e rest ih =>
    intro st
    simp only [runChannel, ih, handleWsEvent_openF, List.any_cons]
    cases st.openF <;> cases h : isCloseSignal e <;> simp

/-! Session Broadcast Hub: the background script of the web extension. -/

/-- The host settings record read by getOptions: username, serverUrl and
apiKey may each be unset. -/
structure ExtOptions where
  username : Option String
  serverUrl : Option String
  apiKey : Option String
deriving DecidableEq

/-- SessionOptions passed to the Session constructor. -/
structure SessionOptions where
  username : String
  url : String
  apiKey : Option String
deriving DecidableEq

/-- RoomInit passed to createRoom. -/
structure RoomInit where
  name : String
  password : String
deriving DecidableEq

/-- Modelled from the spec: the Session class of palantir-client is not
among the sources, only its use sites are.  A session is summarised by an
identity, by whether its synchronous room operations throw (for example
because the Connection Channel is already closed, with the thrown error
text), and by whether a room is currently joined. -/
structure SessionM where
  sid : Nat
  opErr : Option String
  inRoom : Bool
deriving DecidableEq

/-- JS falsiness of an optional string option: undefined or empty. -/
def isFalsyStr : Option String → Bool
  | none => true
  | some s => s.isEmpty

/-- Side effects of the background hub, in emission order. -/
inductive Action where
  | closeRequested (sid : Nat) (message : String)
  | connectionOpened (sid : Nat)
  | supersede (sid : Nat)
  | listenerAdded (sid : Nat)
  | netSend (sid : Nat) (proto : String)
deriving DecidableEq

/-- Events dispatched on the background EventTarget to observers. -/
inductive HubEvent where
  | updateEvt
  | errorEvt (message : String)
deriving DecidableEq

/-- Background-script state: the module-level session variable, a fresh
session identity counter, the update listeners ever attached by
startSession (the code never removes them), the sessions whose close was
requested, and the options record behind getOptions. -/
structure Hub where
  session : Option SessionM
  nextSid : Nat
  listeners : List Nat
  closedSids : List Nat
  opts : ExtOptions
deriving DecidableEq

/-- stopSession: a no-op without a current session, otherwise it requests
session.close(message).  Recording the sid among closedSids is the
spec-modelled effect of Session.close tearing the session down. -/
def stopSession (h : Hub) (message : String) : Hub × List Action :=
  match h.session with
  | none => (h, [])
  | some s =>
    ({ h with closedSids := s.sid :: h.closedSids },
     [.closeRequested s.sid message])

/-- startSession: stop the current session first, then construct the new
Session (whose construction opens its Connection Channel), assign it to
the current-session variable and attach the update listener. -/
def startSession (h : Hub) (_opts : SessionOptions) : Hub × List Action :=
  let r := stopSession h "Superseded by another session"
  ({ r.1 with
      session := some { sid := r.1.nextSid, opErr := none, inRoom := false },
      nextSid := r.1.nextSid + 1,
      listeners := r.1.nextSid :: r.1.listeners },
   r.2 ++ [.connectionOpened r.1.nextSid, .supersede r.1.nextSid,
     .listenerAdded r.1.nextSid])

/-- The error text sent when the options record is incomplete. -/
def incompleteOptionsMessage : String :=
  "Incomplete options. Please use the extension options page to make sure you have a valid server URL and username set."

/-- startSessionFromOptions: read the options; with a missing username or
server URL, send one readable error event and stop; otherwise start a
session from the options. -/
def startSessionFromOptions (h : Hub) : Hub × List Action × List HubEvent :=
  if isFalsyStr h.opts.username || isFalsyStr h.opts.serverUrl then
    (h, [], [.errorEvt incompleteOptionsMessage])
  else
    let r := startSession h
      { username := h.opts.username.getD "", url := h.opts.serverUrl.getD "",
        apiKey := h.opts.apiKey }
    (r.1, r.2, [])

/-- tryEnsureSession: start a session from the options only when none is
current. -/
def tryEnsureSession (h : Hub) : Hub × List Action × List HubEvent :=
  match h.session with
  | some _ => (h, [], [])
  | none => startSessionFromOptions h

/-- SessionState snapshot exposed to observers. -/
structure SessionState where
  inRoom : Bool
deriving DecidableEq

/-- getSessionState: inRoom false without a session, otherwise the state
of the current session. -/
def getSessionState (h : Hub) : SessionState :=
  match h.session with
  | none => { inRoom := false }
  | some s => { inRoom := s.inRoom }

/-- createRoom of the background script: ensure a session, then call
session.createRoom inside try/catch; a synchronous throw sends one error
event and clears the session variable.  A successful call is modelled
from the spec as emitting the room::create protocol message. -/
def createRoom (h : Hub) (_init : RoomInit) : Hub × List Action × List HubEvent :=
  let r := tryEnsureSession h
  match r.1.session with
  | none => r
  | some s =>
    match s.opErr with
    | some e =>
      ({ r.1 with session := none }, r.2.1,
       r.2.2 ++ [.errorEvt ("Failed to create room: " ++ e)])
    | none => (r.1, r.2.1 ++ [.netSend s.sid "room::create"], r.2.2)

/-- joinRoom of the background script, same shape as createRoom. -/
def joinRoom (h : Hub) (_id _password : String) : Hub × List Action × List HubEvent :=
  let r := tryEnsureSession h
  match r.1.session with
  | none => r
  | some s =>
    match s.opErr with
    | some e =>
      ({ r.1 with session := none }, r.2.1,
       r.2.2 ++ [.errorEvt ("Failed to join room: " ++ e)])
    | none => (r.1, r.2.1 ++ [.netSend s.sid "room::join"], r.2.2)

/-- leaveRoom of the background script: optional chaining on the session
variable, no tryEnsureSession; with no session the call does nothing. -/
def leaveRoom (h : Hub) : Hub × List Action × List HubEvent :=
  match h.session with
  | none => (h, [], [])
  | some s =>
    match s.opErr with
    | some e =>
      ({ h with session := none }, [],
       [.errorEvt ("Failed to leave room: " ++ e)])
    | none => (h, [.netSend s.sid "room::leave"], [])

/-- Modelled from the spec: the MessageSchema of the extension messages
module is not among the sources; per the spec the inbound UI intents are
get_session_state, create_room, join_room and leave_room. -/
inductive Intent where
  | getSessionStateIntent
  | createRoomIntent (name : String) (password : String)
  | joinRoomIntent (id : String) (password : String)
  | leaveRoomIntent
deriving DecidableEq

/-- Outbound UI-channel messages: session_state and session_error. -/
inductive Outbound where
  | sessionState (st : SessionState)
  | sessionError (message : String)
deriving DecidableEq

/-- Hub events as one connected port observes them through its listeners:
an update event posts the current snapshot, an error event posts
session_error. -/
def deliverToPort (h : Hub) (evs : List HubEvent) : List Outbound :=
  evs.map fun e =>
    match e with
    | .updateEvt => .sessionState (getSessionState h)
    | .errorEvt msg => .sessionError msg

/-- The port.onMessage listener: a switch on the parsed message type.
join_room, create_room and leave_room dispatch to the session operations;
any other type, get_session_state included, falls through to the default
branch, which only logs a warning and posts nothing. -/
def handlePortMessage (h : Hub) : Intent → Hub × List Action × List Outbound
  | .joinRoomIntent i p =>
    let r := joinRoom h i p
    (r.1, r.2.1, deliverToPort r.1 r.2.2)
  | .createRoomIntent n p =>
    let r := createRoom h { name := n, password := p }
    (r.1, r.2.1, deliverToPort r.1 r.2.2)
  | .leaveRoomIntent =>
    let r := leaveRoom h
    (r.1, r.2.1, deliverToPort r.1 r.2.2)
  | .getSessionStateIntent => (h, [], [])

/-- Index of the first list element satisfying p. -/
def firstIdx (p : α → Bool) : List α → Option Nat
  | [] => none
  | a :: rest => if p a then some 0 else (firstIdx p rest).map (· + 1)

/-- Supersede actions. -/
def isSupersedeAct : Action → Bool
  | .supersede _ => true
  | _ => false

/-- Teardown request actions. -/
def isCloseRequestedAct : Action → Bool
  | .closeRequested _ _ => true
  | _ => false

/-- Network-send actions. -/
def isNetSendAct : Action → Bool
  | .netSend _ _ => true
  | _ => false

/-- The ordering property claimed by the spec: in the action trace, the
supersede of the current-session reference comes before the teardown
request of the old connection. -/
def supersedesBeforeTeardown (tr : List Action) : Prop :=
  ∃ i j, firstIdx isSupersedeAct tr = some i ∧
    firstIdx isCloseRequestedAct tr = some j ∧ i < j

/-- Modelled from the spec: the Session class is not among the sources.
A Session whose close has been requested emits no further update events;
an update event from a live session with an attached listener is
forwarded to observers. -/
def deliverUpdateFrom (h : Hub) (sid : Nat) : List HubEvent :=
  if h.listeners.contains sid && !(h.closedSids.contains sid) then [.updateEvt]
  else []

/-! Claim theorems. -/

/-- C1: decodeMessage is fail-closed.  A successful decode yields a
Message whose wire tag m is one of the known variants and whose body
satisfies that variant schema (all refinements included); an unknown
discriminator, a missing required field, or a present field value
rejected by its schema type each make the decode fail, so no partial
Message is produced. -/
theorem C1_decode_fail_closed :
    (∀ (mdecode : List Nat → Except String Value) (data : List Nat)
        (msg : Message), decodeMessage mdecode data = .ok msg →
        msg.body.m ∈ knownTags ∧ bodyValid msg.body = true) ∧
    (∀ (es : List (String × Value)) (tag : String),
        mlookup es "m" = some (.str tag) → tag ∉ knownTags →
        (parseMessage (.map es)).isOk = false) ∧
    (∀ (es : List (String × Value)) (tag f : String),
        mlookup es "m" = some (.str tag) → f ∈ requiredFields tag →
        mlookup es f = none → (parseMessage (.map es)).isOk = false) ∧
    (∀ (es : List (String × Value)) (tag f : String) (ty : FieldTy) (v : Value),
        mlookup es "m" = some (.str tag) → (f, ty) ∈ fieldSpecs tag →
        mlookup es f = some v → ty.ok v = false →
        (parseMessage (.map es)).isOk = false) :=
  ⟨decodeMessage_ok_sound, decode_fail_unknown_tag, decode_fail_missing_field,
    decode_fail_wrong_type⟩

/-- Witness for C1 at concrete inputs: a ping frame decodes to a known
valid body; an unknown tag, a missing name field on room::create, and a
non-uuid id on room::join each make the decode fail. -/
theorem C1_witness :
    ((Message.mk 5 .connectionPing).body.m ∈ knownTags ∧
      bodyValid (Message.mk 5 .connectionPing).body = true) ∧
    (parseMessage (.map [("t", .num 0), ("m", .str "bogus/v1")])).isOk = false ∧
    (parseMessage (.map [("t", .num 0),
      ("m", .str "room::create/v1")])).isOk = false ∧
    (parseMessage (.map [("t", .num 0), ("m", .str "room::join/v1"),
      ("id", .str "nope"), ("password", .str "pw")])).isOk = false := by
  refine ⟨?_, ?_, ?_, ?_⟩
  · exact C1_decode_fail_closed.1
      (fun _ => .ok (.map [("t", .num 5), ("m", .str "connection::ping/v1")]))
      [] (Message.mk 5 .connectionPing) (by rfl)
  · exact C1_decode_fail_closed.2.1 _ "bogus/v1" (by rfl) (by simp [knownTags])
  · exact C1_decode_fail_closed.2.2.1 _ "room::create/v1" "name" (by rfl)
      (by simp [requiredFields]) (by rfl)
  · exact C1_decode_fail_closed.2.2.2 _ "room::join/v1" "id" .uuidTy
      (.str "nope") (by rfl) (by simp [fieldSpecs]) (by rfl) (by rfl)

/-- C2: for every schema-valid body and any msgpack codec that
round-trips the encoded wire object, encoding at the current time and
then decoding succeeds and returns exactly the body together with the
numeric timestamp t stamped at encoding time. -/
theorem C2_encode_decode_roundtrip (mencode : Value → List Nat)
    (mdecode : List Nat → Except String Value) (now : Int) (body : MessageBody)
    (hvalid : bodyValid body = true)
    (hcodec : mdecode (mencode (encodeMessageVal now body)) =
      .ok (encodeMessageVal now body)) :
    decodeMessage mdecode (encodeMessage mencode now body) =
      .ok { t := now, body := body } := by
  unfold decodeMessage encodeMessage
  rw [hcodec]
  simp only [exbind_ok]
  exact parseMessage_encodeMessageVal now body hvalid

/-- Witness for C2: a concrete room create body with a constant codec
that round-trips the encoded object. -/
theorem C2_witness :
    decodeMessage
      (fun _ => .ok (encodeMessageVal 7 (.roomCreate "alpha" "secret")))
      (encodeMessage (fun _ => [1]) 7 (.roomCreate "alpha" "secret")) =
      .ok { t := 7, body := .roomCreate "alpha" "secret" } :=
  C2_encode_decode_roundtrip (fun _ => [1]) _ 7 _ (by rfl) (by rfl)

/-- Concrete hub with a live session, used for the C3 counterexample. -/
def hubC3 : Hub :=
  { session := some { sid := 0, opErr := none, inRoom := false },
    nextSid := 1, listeners := [0], closedSids := [],
    opts := { username := some "alice", serverUrl := some "wss://example",
              apiKey := none } }

/-- Session options used for the C3 counterexample. -/
def sessOptsC3 : SessionOptions :=
  { username := "alice", url := "wss://example", apiKey := none }

/-- C3 counterexample: startSession requests the old session teardown
BEFORE assigning the new session to the current reference (stopSession
runs first), so on the concrete trace the claimed supersede-before-
teardown order is false. -/
theorem C3_counterexample :
    ¬ supersedesBeforeTeardown (startSession hubC3 sessOptsC3).2 := by
  intro hcl
  obtain ⟨i, j, hi, hj, hij⟩ := hcl
  have h1 : firstIdx isSupersedeAct (startSession hubC3 sessOptsC3).2 =
      some 2 := by rfl
  have h2 : firstIdx isCloseRequestedAct (startSession hubC3 sessOptsC3).2 =
      some 0 := by rfl
  rw [h1] at hi
  rw [h2] at hj
  injection hi with hi
  injection hj with hj
  omega

/-- C3 amended: starting a new session while one is active requests the
old connection teardown synchronously BEFORE superseding the reference
(the converse of the claimed order); the old session close is requested
exactly once; the new session is current afterwards; and no further
update event of the old session is delivered to observers (under the
spec-modelled rule that a closed Session emits nothing). -/
theorem C3_teardown_then_supersede (h : Hub) (s : SessionM)
    (opts : SessionOptions) (hs : h.session = some s) :
    (startSession h opts).2 =
      [.closeRequested s.sid "Superseded by another session",
       .connectionOpened h.nextSid, .supersede h.nextSid,
       .listenerAdded h.nextSid] ∧
    (startSession h opts).2.countP isCloseRequestedAct = 1 ∧
    (startSession h opts).1.session =
      some { sid := h.nextSid, opErr := none, inRoom := false } ∧
    deliverUpdateFrom (startSession h opts).1 s.sid = [] := by
  unfold startSession stopSession deliverUpdateFrom
  rw [hs]
  simp [isCloseRequestedAct, List.countP_cons]

/-- Witness for C3 at the concrete hub: the trace and the silencing of
the old session. -/
theorem C3_witness :
    (startSession hubC3 sessOptsC3).2 =
      [.closeRequested 0 "Superseded by another session",
       .connectionOpened 1, .supersede 1, .listenerAdded 1] ∧
    deliverUpdateFrom (startSession hubC3 sessOptsC3).1 0 = [] := by
  have h := C3_teardown_then_supersede hubC3
    { sid := 0, opErr := none, inRoom := false } sessOptsC3 rfl
  exact ⟨h.1, h.2.2.2⟩

/-- Concrete hub whose session holds a cached room state, used for C4. -/
def hubC4 : Hub :=
  { session := some { sid := 0, opErr := none, inRoom := true },
    nextSid := 1, listeners := [0], closedSids := [],
    opts := { username := some "alice", serverUrl := some "wss://example",
              apiKey := none } }

/-- C4: evaluating the port message listener at the failing input.  A
get_session_state intent received while the session holds a cached room
state falls through to the default warning branch of the switch: the hub
is unchanged and nothing is posted back on the channel, although the
snapshot getSessionState would return exists.  This contradicts the claim
that the snapshot is posted back on that channel. -/
theorem C4_get_session_state_ignored :
    handlePortMessage hubC4 .getSessionStateIntent = (hubC4, [], []) ∧
    getSessionState hubC4 = { inRoom := true } :=
  ⟨rfl, rfl⟩

/-- C5 counterexample: the browser fires a websocket error event and then
the close event on a failed connection; onClosed has no guard, so the
channel dispatches the closed event twice over its lifetime. -/
theorem C5_counterexample :
    ¬ (countClosedEmits
        (runChannel (fun _ => .error "unused") initialChanState
          [.error, .close]).2 ≤ 1) := by
  decide

/-- C5 amended: the closed event fires exactly once per transport close
signal (a websocket error event or the close event) rather than at most
once per lifetime, so an error followed by close fires it twice; isOpen
is true exactly until the first close signal is processed; and a closed
channel never returns to the open state. -/
theorem C5_closed_per_close_signal (mdecode : List Nat → Except String Value)
    (evts : List WsEvent) :
    countClosedEmits (runChannel mdecode initialChanState evts).2 =
      evts.countP isCloseSignal ∧
    ((runChannel mdecode initialChanState evts).1.openF = true ↔
      evts.countP isCloseSignal = 0) ∧
    (∀ (st : ChanState) (pre suf : List WsEvent),
      (runChannel mdecode st pre).1.openF = false →
      (runChannel mdecode st (pre ++ suf)).1.openF = false) := by
  refine ⟨runChannel_closedCount mdecode evts initialChanState, ?_, ?_⟩
  · rw [runChannel_openF]
    simp only [initialChanState, Bool.true_and, Bool.not_eq_true',
      List.any_eq_false, List.countP_eq_zero]
  · intro st pre suf hcl
    rw [runChannel_openF] at hcl ⊢
    rw [List.any_append]
    cases hst : st.openF <;> cases hpre : pre.any isCloseSignal <;>
      simp_all

/-- Witness for C5: one close signal fires closed once, and a channel
closed by a prefix stays closed over any suffix. -/
theorem C5_witness :
    countClosedEmits (runChannel (fun _ => .error "unused") initialChanState
      [.close]).2 = ([.close] : List WsEvent).countP isCloseSignal ∧
    (runChannel (fun _ => .error "unused") initialChanState
      ([.close] ++ [.message .other])).1.openF = false := by
  have h := C5_closed_per_close_signal (fun _ => .error "unused") [.close]
  exact ⟨h.1, h.2.2 initialChanState [.close] [.message .other] (by rfl)⟩

/-- C6: per-message errors stay local to the channel.  send swallows a
throwing transport write: no exception reaches the caller, the state is
unchanged, nothing is dispatched, the channel is not closed.  An inbound
binary frame that fails to decode is dropped: no message event, the open
flag unchanged, only the decode attempt counter moves. -/
theorem C6_per_message_errors_local (mencode : Value → List Nat)
    (writeErr : Option String) (now : Int) (st : ChanState)
    (body : MessageBody) (mdecode : List Nat → Except String Value)
    (data : List Nat) (hfail : (decodeMessage mdecode data).isOk = false) :
    send mencode writeErr now st body = .ok (st, []) ∧
    handleWsEvent mdecode st (.message (.bin data)) =
      ({ st with decodeAttempts := st.decodeAttempts + 1 }, []) ∧
    (handleWsEvent mdecode st (.message (.bin data))).1.openF = st.openF := by
  refine ⟨?_, ?_, ?_⟩
  · unfold send wsSend
    cases writeErr <;> rfl
  · cases hd : decodeMessage mdecode data with
    | ok msg => rw [hd] at hfail; simp at hfail
    | error e => simp [handleWsEvent, hd]
  · rw [handleWsEvent_openF]
    simp [isCloseSignal]

/-- Witness for C6: a throwing write and an undecodable frame at concrete
inputs. -/
theorem C6_witness :
    send (fun _ => [1]) (some "boom") 3 initialChanState .connectionPing =
      .ok (initialChanState, []) ∧
    handleWsEvent (fun _ => .error "bad") initialChanState
      (.message (.bin [0])) =
      ({ initialChanState with decodeAttempts := 1 }, []) := by
  have h := C6_per_message_errors_local (fun _ => [1]) (some "boom") 3
    initialChanState .connectionPing (fun _ => .error "bad") [0] (by rfl)
  exact ⟨h.1, h.2.1⟩

/-- C7: when the underlying session operation throws synchronously, each
of createRoom, joinRoom and leaveRoom clears the current session (so the
next operation starts a fresh one) and raises exactly one readable error
event to observers. -/
theorem C7_sync_throw_invalidates (h : Hub) (s : SessionM) (e : String)
    (init : RoomInit) (id pw : String) (hs : h.session = some s)
    (he : s.opErr = some e) :
    createRoom h init =
      ({ h with session := none }, [],
       [.errorEvt ("Failed to create room: " ++ e)]) ∧
    joinRoom h id pw =
      ({ h with session := none }, [],
       [.errorEvt ("Failed to join room: " ++ e)]) ∧
    leaveRoom h =
      ({ h with session := none }, [],
       [.errorEvt ("Failed to leave room: " ++ e)]) := by
  unfold createRoom joinRoom leaveRoom tryEnsureSession
  rw [hs]
  simp [hs, he]

/-- Concrete hub whose session operations throw, used for C7. -/
def hubC7 : Hub :=
  { session := some { sid := 0, opErr := some "Error: channel closed",
                      inRoom := false },
    nextSid := 1, listeners := [0], closedSids := [],
    opts := { username := some "alice", serverUrl := some "wss://example",
              apiKey := none } }

/-- Witness for C7 at the concrete hub. -/
theorem C7_witness :
    createRoom hubC7 { name := "alpha", password := "secret" } =
      ({ hubC7 with session := none }, [],
       [.errorEvt ("Failed to create room: " ++ "Error: channel closed")]) := by
  have h := C7_sync_throw_invalidates hubC7
    { sid := 0, opErr := some "Error: channel closed", inRoom := false }
    "Error: channel closed" { name := "alpha", password := "secret" }
    "i" "p" rfl rfl
  exact h.1

/-- Concrete hub with a live session but an incomplete options record,
used for the C8 counterexample. -/
def hubC8 : Hub :=
  { session := some { sid := 0, opErr := none, inRoom := false },
    nextSid := 1, listeners := [0], closedSids := [],
    opts := { username := none, serverUrl := some "wss://example",
              apiKey := none } }

/-- C8 counterexample: while the configured credentials are incomplete
(username unset) but a session is still live, a create-room intent
reaches session.createRoom and sends the protocol message, so a network
call is made; the code guards credentials only when it must create a
session, not per operation. -/
theorem C8_counterexample :
    isFalsyStr hubC8.opts.username = true ∧
    (createRoom hubC8 { name := "alpha", password := "secret" }).2.1 =
      [.netSend 0 "room::create"] ∧
    ¬ ((createRoom hubC8 { name := "alpha", password := "secret" }).2.1.countP
        isNetSendAct = 0) := by
  refine ⟨rfl, rfl, ?_⟩
  intro hcl
  rw [show (createRoom hubC8 { name := "alpha", password := "secret" }).2.1 =
    [.netSend 0 "room::create"] from rfl] at hcl
  simp [isNetSendAct, List.countP_cons] at hcl

/-- C8 amended: when no session is current and the options record lacks a
username or server URL, create-room and join-room intents create no
session, perform no action at all (in particular no network call), and
raise exactly one readable error event instead of an exception. -/
theorem C8_incomplete_options_guard (h : Hub) (init : RoomInit)
    (id pw : String) (hnone : h.session = none)
    (hinc : (isFalsyStr h.opts.username || isFalsyStr h.opts.serverUrl) = true) :
    createRoom h init = (h, [], [.errorEvt incompleteOptionsMessage]) ∧
    joinRoom h id pw = (h, [], [.errorEvt incompleteOptionsMessage]) := by
  unfold createRoom joinRoom tryEnsureSession startSessionFromOptions
  rw [hnone, if_pos hinc]
  simp [hnone]

/-- Hub with no session and incomplete options, used for the C8 witness. -/
def hubC8b : Hub :=
  { session := none, nextSid := 0, listeners := [], closedSids := [],
    opts := { username := none, serverUrl := some "wss://example",
              apiKey := none } }

/-- Witness for C8 at the concrete hub without a session. -/
theorem C8_witness :
    createRoom hubC8b { name := "alpha", password := "secret" } =
      (hubC8b, [], [.errorEvt incompleteOptionsMessage]) :=
  (C8_incomplete_options_guard hubC8b { name := "alpha", password := "secret" }
    "i" "p" rfl rfl).1

/-- C9: a websocket message event whose payload is not a Uint8Array is
logged and discarded before any decode: the decode attempt counter, the
open flag and the whole state are unchanged and no event is emitted. -/
theorem C9_non_binary_payload_discarded
    (mdecode : List Nat → Except String Value) (st : ChanState) :
    handleWsEvent mdecode st (.message .other) = (st, []) := rfl

/-- C10: calling leaveRoom with no current session is a complete no-op:
state unchanged, no action, no event; and unlike createRoom (which with
complete options creates a session on demand), it creates none. -/
theorem C10_leaveRoom_noop (h : Hub) (init : RoomInit)
    (hnone : h.session = none) :
    leaveRoom h = (h, [], []) ∧
    ((isFalsyStr h.opts.username || isFalsyStr h.opts.serverUrl) = false →
      ((createRoom h init).1.session).isSome = true) := by
  constructor
  · unfold leaveRoom
    rw [hnone]
  · intro hcomplete
    unfold createRoom tryEnsureSession startSessionFromOptions startSession
      stopSession
    rw [hnone]
    simp [hcomplete]

/-- Hub with no session and complete options, used for the C10 witness. -/
def hubC10 : Hub :=
  { session := none, nextSid := 0, listeners := [], closedSids := [],
    opts := { username := some "alice", serverUrl := some "wss://example",
              apiKey := none } }

/-- Witness for C10 at the concrete hub. -/
theorem C10_witness :
    leaveRoom hubC10 = (hubC10, [], []) ∧
    ((createRoom hubC10 { name := "a", password := "b" }).1.session).isSome =
      true := by
  have h := C10_leaveRoom_noop hubC10 { name := "a", password := "b" } rfl
  exact ⟨h.1, h.2 rfl⟩

end Palantir
